import Mathlib

/-!
Shallow embedding of the telemetry core of `db_query_optimization`
(request timer, structured log entry model, persistence dispatcher,
file sink and backend registry), together with proofs settling the
specification claims.  Python floats are modelled as rationals,
Python dicts as insertion-ordered association lists.
-/

namespace DbQueryOpt

/-! ## Python dict primitives (insertion-ordered association lists) -/

/-- Python `d.get(k, dflt)` on a string-keyed dict modelled as an
insertion-ordered association list. -/
def dictGet (ts : List (String × ℚ)) (k : String) (dflt : ℚ) : ℚ :=
  match ts.find? (fun p => p.1 == k) with
  | some p => p.2
  | none => dflt

/-- Python `d[k] = v`: updates the value in place when the key exists
(keeping its position), otherwise appends the new pair at the end. -/
def dictSet : List (String × ℚ) → String → ℚ → List (String × ℚ)
  | [], k, v => [(k, v)]
  | (k0, v0) :: rest, k, v =>
      if k0 == k then (k0, v) :: rest else (k0, v0) :: dictSet rest k v

/-- Membership of a key in the dict (`k in d`). -/
def dictHasKey (ts : List (String × ℚ)) (k : String) : Bool :=
  (ts.find? (fun p => p.1 == k)).isSome

/-! ## Numeric formatting helpers (Python `round` / format specifiers) -/

/-- Python `round()` ties-to-even rounding of a rational to an integer. -/
def roundHalfEven (q : ℚ) : ℤ :=
  let f := ⌊q⌋
  if q - f < 1/2 then f
  else if q - f > 1/2 then f + 1
  else if f % 2 = 0 then f else f + 1

/-- Python `round(x, 2)`: round to two decimal places, ties to even. -/
def round2 (q : ℚ) : ℚ := (roundHalfEven (q * 100) : ℚ) / 100

/-- Decimal digit character (`digitChar 7 = '7'`). -/
def digitChar (n : ℕ) : Char := Char.ofNat (48 + n)

/-- Two-digit zero-padded decimal rendering (Python `f"{n:02d}"` for `n < 100`). -/
def pad2 (n : ℕ) : String := String.mk [digitChar (n / 10 % 10), digitChar (n % 10)]

/-- Four-digit zero-padded decimal rendering (Python `f"{n:04d}"` for `n < 10000`). -/
def pad4 (n : ℕ) : String :=
  String.mk [digitChar (n / 1000 % 10), digitChar (n / 100 % 10),
             digitChar (n / 10 % 10), digitChar (n % 10)]

/-- Python `f"{q:.2f}"` on a rational. -/
def fmt2 (q : ℚ) : String :=
  let c := roundHalfEven (q * 100)
  let sgn := if c < 0 then "-" else ""
  let a := c.natAbs
  sgn ++ toString (a / 100) ++ "." ++ pad2 (a % 100)

/-- Python `f"{q:.0f}"` on a rational. -/
def fmt0 (q : ℚ) : String := toString (roundHalfEven q)

/-! ## `request_timer.py` — RequestTimer -/

/-- State of `RequestTimer`: the `timings` dict mapping span names to
accumulated milliseconds. -/
structure RequestTimer where
  timings : List (String × ℚ)
deriving DecidableEq

/-- A fresh `RequestTimer()` with an empty `timings` dict. -/
def RequestTimer.new : RequestTimer := ⟨[]⟩

/-- One execution of the `capture(name)` context-manager scope.
`elapsedMs` is the wall-clock time the body took; `bodyCompletes`
records whether the wrapped work ran to completion or raised/aborted.
The source's generator is `start := perf_counter(); yield; timings[name] :=
timings.get(name, 0) + elapsed` with no `try/finally`: when the body
raises, the exception is thrown into the generator at the `yield` point
and the accumulation line never executes, so the state is returned
unchanged. -/
def RequestTimer.capture (t : RequestTimer) (name : String) (elapsedMs : ℚ)
    (bodyCompletes : Bool) : RequestTimer :=
  if bodyCompletes then
    ⟨dictSet t.timings name (dictGet t.timings name 0 + elapsedMs)⟩
  else t

/-- `RequestTimer.format_server_timing`: renders `name;dur=ms` pairs
joined by `", "`. -/
def RequestTimer.format_server_timing (t : RequestTimer) : String :=
  String.intercalate ", " (t.timings.map (fun p => p.1 ++ ";dur=" ++ fmt2 p.2))

/-- Replay of a sequence of completed captures (name, elapsed) on a timer. -/
def RequestTimer.runCaptures (t : RequestTimer) (l : List (String × ℚ)) : RequestTimer :=
  l.foldl (fun t p => t.capture p.1 p.2 true) t

/-! ## `persistence.py` — LogPersistenceHandler -/

/-- `queue.Queue(maxsize=10000)` capacity of the dispatcher's bounded queue. -/
def QUEUE_MAXSIZE : ℕ := 10000

/-- Mutable state of `LogPersistenceHandler` relevant to enqueueing:
the bounded queue (front = next to dequeue) and the `_failed_logs`
counter.  Entries are abstract (`α`). -/
structure PersistState (α : Type) where
  queue : List α
  failed_logs : ℕ
deriving DecidableEq

/-- `LogPersistenceHandler.enqueue_log`: `put_nowait` on the bounded
queue; on `queue.Full` the entry is dropped, `_failed_logs` is
incremented and `False` is returned.  Total function: it never blocks
and never raises. -/
def enqueue_log {α : Type} (s : PersistState α) (e : α) : PersistState α × Bool :=
  if s.queue.length < QUEUE_MAXSIZE then
    ({ s with queue := s.queue ++ [e] }, true)
  else
    ({ s with failed_logs := s.failed_logs + 1 }, false)

/-- The batch-collection loop of `_process_queue` after the first item
arrived: `while len(batch) < 100: batch.append(queue.get_nowait())`,
stopping when the queue raises `Empty`.  Returns the final batch and
the remaining queue contents. -/
def drainLoop {α : Type} : List α → List α → List α × List α
  | batch, [] => (batch, [])
  | batch, x :: rest =>
      if batch.length < 100 then drainLoop (batch ++ [x]) rest
      else (batch, x :: rest)

/-- One batch-collection step of `_process_queue`: the first item is
obtained by the blocking `get(timeout=0.5)`, then the drain loop runs
on the rest of the queue. -/
def collectBatch {α : Type} (first : α) (pending : List α) : List α × List α :=
  drainLoop [first] pending

/-! ## `middleware_types.py` — structured entry model -/

/-- `PerformanceBreakdown` pydantic model. -/
structure PerformanceBreakdown where
  total_ms : ℚ
  app_logic_ms : ℚ
  db_session_total_ms : ℚ
  sql_execution_total_ms : ℚ
  query_count : ℤ
deriving DecidableEq

/-- `PerformanceBreakdown.db_overhead_ms`:
`round(db_session_total_ms - sql_execution_total_ms, 2)`. -/
def PerformanceBreakdown.db_overhead_ms (p : PerformanceBreakdown) : ℚ :=
  round2 (p.db_session_total_ms - p.sql_execution_total_ms)

/-- `RequestMetadata` pydantic model. -/
structure RequestMetadata where
  method : String
  path : String
  status_code : ℕ
  duration_ms : ℚ
deriving DecidableEq

/-- Computed field `RequestMetadata.duration_seconds`:
`round(duration_ms / 1000, 3)`. -/
def RequestMetadata.duration_seconds (m : RequestMetadata) : ℚ :=
  (roundHalfEven (m.duration_ms / 1000 * 1000) : ℚ) / 1000

/-- `RequestDetails` pydantic model (all fields optional). -/
structure RequestDetails where
  client_host : Option String
  user_agent : Option String
  query_params : Option (List (String × String))
  path_params : Option (List (String × String))
  request_id : Option String
  content_length : Option ℕ
  time_to_first_byte : Option ℚ
deriving DecidableEq

/-- `RequestLogEntry` pydantic model; the timestamp is abstracted to a
number. -/
structure RequestLogEntry where
  timestamp : ℕ
  metadata : RequestMetadata
  details : Option RequestDetails
  performance : Option PerformanceBreakdown
deriving DecidableEq

/-- Computed field `RequestLogEntry.is_slow`: flags requests slower
than one second. -/
def RequestLogEntry.is_slow (e : RequestLogEntry) : Bool :=
  e.metadata.duration_ms > 1000

/-- Computed field `RequestLogEntry.is_error`: flags 5xx responses. -/
def RequestLogEntry.is_error (e : RequestLogEntry) : Bool :=
  e.metadata.status_code ≥ 500

/-- The N+1 warning text (the emoji in the source file is stored
double-encoded; the escapes below are the exact characters a UTF-8
read of the source yields). -/
def msgNPlus1 (qc : ℤ) : String :=
  "ðŸš¨ N+1_QUERY_SUSPECTED: " ++ toString qc ++
    " queries (likely missing eager loading)"

/-- The high-query-count warning text. -/
def msgHighQueryCount (qc : ℤ) : String :=
  "âš ï¸ HIGH_QUERY_COUNT: " ++ toString qc ++
    " queries (consider using selectinload/joinedload)"

/-- The slow-SQL warning text. -/
def msgSlowSql (sql : ℚ) : String :=
  "ðŸŒ SLOW_SQL: Query execution took " ++ fmt0 sql ++
    "ms (needs indexing or query optimization)"

/-- The moderate-SQL warning text. -/
def msgModerateSql (sql : ℚ) : String :=
  "â±ï¸ MODERATE_SQL: Query took " ++ fmt0 sql ++
    "ms (check indexes and EXPLAIN plan)"

/-- The connection-overhead warning text. -/
def msgConnOverhead (ov : ℚ) : String :=
  "ðŸ”Œ HIGH_CONNECTION_OVERHEAD: " ++ fmt0 ov ++
    "ms in connection management (check pool settings)"

/-- The DB-dominance warning text. -/
def msgDbDominated (pct total : ℚ) (qc : ℤ) : String :=
  "ðŸ“Š DB_DOMINATED_REQUEST: " ++ fmt0 pct ++ "% of " ++
    fmt0 total ++ "ms spent in DB (" ++ toString qc ++ " queries)"

/-- The body of the `if total_time > 50` block of
`optimization_warnings` (hoisted into its own definition):
`db_percentage := db_time / total_time * 100`, and the DB-dominated
warning is appended when `db_percentage > 80 and total_time > 200`. -/
def dbDominatedCheck (db_time total_time : ℚ) (query_count : ℤ)
    (warns : List String) : List String :=
  if db_time / total_time * 100 > 80 ∧ total_time > 200 then
    warns ++ [msgDbDominated (db_time / total_time * 100) total_time query_count]
  else warns

/-- Computed field `RequestLogEntry.optimization_warnings`, translated
statement by statement from the source.  `slowQueryThreshold` is
`float(require_env("SLOW_QUERY_THRESHOLD"))`, passed as a parameter. -/
def RequestLogEntry.optimization_warnings (slowQueryThreshold : ℚ)
    (e : RequestLogEntry) : List String :=
  match e.performance with
  | none => []
  | some perf =>
    let total_time := e.metadata.duration_ms
    let db_time := perf.db_session_total_ms
    let sql_time := perf.sql_execution_total_ms
    let db_overhead := perf.db_overhead_ms
    let query_count := perf.query_count
    let warns0 : List String := []
    let warns1 := if query_count > 10 then warns0 ++ [msgNPlus1 query_count]
      else if query_count > 5 then warns0 ++ [msgHighQueryCount query_count]
      else warns0
    let warns2 := if sql_time > slowQueryThreshold then warns1 ++ [msgSlowSql sql_time]
      else if sql_time > 100 then warns1 ++ [msgModerateSql sql_time]
      else warns1
    let warns3 := if db_overhead > slowQueryThreshold / 2 ∧ db_overhead > total_time * (3 / 10)
      then warns2 ++ [msgConnOverhead db_overhead]
      else warns2
    let warns4 := if total_time > 50 then
        dbDominatedCheck db_time total_time query_count warns3
      else warns3
    warns4

/-- The four warning rules, written exactly as the specification states
them in §4.2, each rule contributing its applicable warnings in order.
`total_ms` here is the performance breakdown's total, as the spec's
data model names it. -/
def specWarningRules (thr : ℚ) (p : PerformanceBreakdown) : List String :=
  (if p.query_count > 10 then [msgNPlus1 p.query_count]
   else if p.query_count > 5 then [msgHighQueryCount p.query_count]
   else [])
  ++ (if p.sql_execution_total_ms > thr then [msgSlowSql p.sql_execution_total_ms]
      else if p.sql_execution_total_ms > 100 then [msgModerateSql p.sql_execution_total_ms]
      else [])
  ++ (if p.db_overhead_ms > thr / 2 ∧ p.db_overhead_ms > (3 / 10) * p.total_ms
      then [msgConnOverhead p.db_overhead_ms]
      else [])
  ++ (if p.total_ms > 50 ∧ p.db_session_total_ms / p.total_ms * 100 > 80 ∧ p.total_ms > 200
      then [msgDbDominated (p.db_session_total_ms / p.total_ms * 100) p.total_ms p.query_count]
      else [])

/-! ## `logger_middleware.py` — severity routing -/

/-- Severity levels used by `_log_request`. -/
inductive LogLevel where
  | error
  | warning
  | info
deriving DecidableEq

/-- The severity at which `RequestLoggingMiddleware._log_request` emits
the finished entry. -/
def log_severity (e : RequestLogEntry) : LogLevel :=
  if e.is_error then LogLevel.error
  else if e.is_slow then LogLevel.warning
  else if e.metadata.status_code ≥ 400 then LogLevel.warning
  else LogLevel.info

/-! ## Calendar (`datetime.date` and `get_date_range.py`)

Dates are represented by their rata-die day number (day 1 is
0001-01-01, a Monday, in the proleptic Gregorian calendar), matching
`datetime.date.toordinal`. -/

/-- Gregorian leap-year test. -/
def isLeap (y : ℕ) : Bool := (y % 4 == 0 && y % 100 != 0) || y % 400 == 0

/-- Number of days of month `m` (1–12) of year `y`. -/
def daysInMonth (y m : ℕ) : ℕ :=
  if m = 2 then (if isLeap y then 29 else 28)
  else if m = 4 ∨ m = 6 ∨ m = 9 ∨ m = 11 then 30
  else 31

/-- Days in year `y` strictly before month `m`. -/
def daysBeforeMonth (y m : ℕ) : ℕ :=
  (List.range (m - 1)).foldl (fun acc i => acc + daysInMonth y (i + 1)) 0

/-- Ordinal day of the year (1-based), as `date.timetuple().tm_yday`. -/
def dayOfYear (y m d : ℕ) : ℕ := daysBeforeMonth y m + d

/-- `date(y, m, d).toordinal()`: the proleptic-Gregorian day number. -/
def toRataDie (y m d : ℕ) : ℕ :=
  365 * (y - 1) + (y - 1) / 4 - (y - 1) / 100 + (y - 1) / 400 + dayOfYear y m d

/-- `date.fromordinal`: day number back to `(year, month, day)`
(the standard era-based civil-from-days computation). -/
def fromRataDie (n : ℕ) : ℕ × ℕ × ℕ :=
  let z := n + 305
  let era := z / 146097
  let doe := z % 146097
  let yoe := (doe - doe / 1460 + doe / 36524 - doe / 146096) / 365
  let y := yoe + era * 400
  let doy := doe - (365 * yoe + yoe / 4 - yoe / 100)
  let mp := (5 * doy + 2) / 153
  let d := doy - (153 * mp + 2) / 5 + 1
  let m := if mp < 10 then mp + 3 else mp - 9
  if m ≤ 2 then (y + 1, m, d) else (y, m, d)

/-- `date.weekday()`: 0 = Monday … 6 = Sunday. -/
def weekday (n : ℕ) : ℕ := (n + 6) % 7

/-- The Monday of the week containing day `n`
(`_date - timedelta(days=_date.weekday())`). -/
def mondayOf (n : ℕ) : ℕ := n - weekday n

/-- `date.isocalendar()[1]`: the ISO-8601 week number, computed as the
week-of-year of the Thursday of the containing Monday–Sunday week. -/
def isoWeekNumber (n : ℕ) : ℕ :=
  match fromRataDie (mondayOf n + 3) with
  | (y, m, d) => (dayOfYear y m d - 1) / 7 + 1

/-- `get_week_date_range` from `common/scripts/get_date_range.py`:
`(week_start, week_end, week_number)` for the date with day number `n`. -/
def get_week_date_range (n : ℕ) : ℕ × ℕ × ℕ :=
  (n - weekday n, n - weekday n + 6, isoWeekNumber n)

/-- `date.isoformat()`: `YYYY-MM-DD` with zero padding. -/
def isoDateString (ymd : ℕ × ℕ × ℕ) : String :=
  pad4 ymd.1 ++ "-" ++ pad2 ymd.2.1 ++ "-" ++ pad2 ymd.2.2

/-! ## `file_backend.py` — FileBackend -/

/-- `FileBackend._get_filename`:
`f"wk{week_number:02d}_{week_start.isoformat()}--{week_end.isoformat()}.json"`. -/
def get_filename (n : ℕ) : String :=
  match get_week_date_range n with
  | (week_start, week_end, week_number) =>
      "wk" ++ pad2 week_number ++ "_" ++ isoDateString (fromRataDie week_start) ++
        "--" ++ isoDateString (fromRataDie week_end) ++ ".json"

/-- Value of a decimal digit character; `none` on a non-digit. -/
def digitVal? (c : Char) : Option ℕ :=
  if 48 ≤ c.toNat ∧ c.toNat ≤ 57 then some (c.toNat - 48) else none

/-- `datetime.date.fromisoformat`: accepts exactly `YYYY-MM-DD` and
validates the calendar date (year ≥ 1, month 1–12, day within the
month); any other string is a parse failure (`ValueError`). -/
def fromisoformat (s : String) : Option (ℕ × ℕ × ℕ) :=
  match s.toList with
  | [y1, y2, y3, y4, c1, m1, m2, c2, d1, d2] =>
    match digitVal? y1, digitVal? y2, digitVal? y3, digitVal? y4,
          digitVal? m1, digitVal? m2, digitVal? d1, digitVal? d2 with
    | some a, some b, some c, some d, some e, some f, some g, some h =>
      if c1 = '-' ∧ c2 = '-' then
        (if 1 ≤ a * 1000 + b * 100 + c * 10 + d ∧ 1 ≤ e * 10 + f ∧ e * 10 + f ≤ 12 ∧
            1 ≤ g * 10 + h ∧ g * 10 + h ≤ daysInMonth (a * 1000 + b * 100 + c * 10 + d) (e * 10 + f)
         then some (a * 1000 + b * 100 + c * 10 + d, e * 10 + f, g * 10 + h)
         else none)
      else none
    | _, _, _, _, _, _, _, _ => none
  | _ => none

/-- Rendering of a string as a JSON string literal (the entries in this
development contain no characters needing escapes). -/
def jsonStr (s : String) : String := "\"" ++ s ++ "\""

/-- `json.dumps` on a flat string-valued dict, with the default
separators `", "` and `": "`. -/
def jsonDumps (e : List (String × String)) : String :=
  "\x7b" ++ String.intercalate ", " (e.map (fun p => jsonStr p.1 ++ ": " ++ jsonStr p.2)) ++ "\x7d"

/-- Append a line to the named file, creating it when absent. -/
def filesAppend : List (String × List String) → String → String → List (String × List String)
  | [], fp, line => [(fp, [line])]
  | (f0, ls) :: rest, fp, line =>
      if f0 == fp then (f0, ls ++ [line]) :: rest
      else (f0, ls) :: filesAppend rest fp line

/-- State touched by `FileBackend.write`: the files of the log
directory (name to list of lines) and the two metric counters. -/
structure FileBackendState where
  files : List (String × List String)
  total_writes : ℕ
  failed_writes : ℕ
deriving DecidableEq

/-- `FileBackend.write`, modelling a log entry as a flat string-valued
dict and the filesystem as always succeeding (the `except` clause of
the source also covers I/O errors, which are outside this model):
reads `log_entry.get("date", date.today().isoformat())`, parses it
with `date.fromisoformat` — a `ValueError` is caught, counted in
`_failed_writes` and converted to `False` — then appends the JSON
payload to the weekly file and counts the write. -/
def FileBackend.write (today : ℕ × ℕ × ℕ) (s : FileBackendState)
    (log_entry : List (String × String)) : FileBackendState × Bool :=
  let log_date_str := (log_entry.lookup "date").getD (isoDateString today)
  match fromisoformat log_date_str with
  | none => ({ s with failed_writes := s.failed_writes + 1 }, false)
  | some ymd =>
      let file_path := get_filename (toRataDie ymd.1 ymd.2.1 ymd.2.2)
      let payload := jsonDumps log_entry
      ({ s with files := filesAppend s.files file_path payload,
                total_writes := s.total_writes + 1 }, true)

/-! ## `registry.py` — backend registry -/

/-- An instantiated sink, identified by its stable name. -/
structure Backend where
  name : String
deriving DecidableEq

/-- The registry module's global state: the `_backends_initialized`
flag and the `_active_backends` list. -/
structure RegistryState where
  backends_initialized : Bool
  active_backends : List Backend
deriving DecidableEq

/-- Parsing of the `LOG_BACKENDS` setting:
`[name.strip() for name in backends_str.split(",")]`. -/
def parseBackendNames (cfg : String) : List String :=
  (cfg.splitOn ",").map String.trim

/-- `_initialize_backends`.  The registry is modelled as a mapping from
identifier to the outcome of attempting `backend_class()` (`none` when
the constructor raises, which the source catches and skips); names
absent from the registry are skipped with a warning.  When no backend
was appended, the file-sink fallback is appended. -/
def initialize_backends (registry : List (String × Option Backend)) (fallback : Backend)
    (names : List String) (s : RegistryState) : RegistryState :=
  if s.backends_initialized then s
  else
    let appended := s.active_backends ++
      names.filterMap (fun nm => (registry.lookup nm).join)
    let final := if appended = [] then appended ++ [fallback] else appended
    { backends_initialized := true, active_backends := final }

/-- `get_active_backends`: lazily initializes, then returns the active
list (together with the updated module state). -/
def get_active_backends (registry : List (String × Option Backend)) (fallback : Backend)
    (cfg : String) (s : RegistryState) : RegistryState × List Backend :=
  let s1 := if s.backends_initialized then s
    else initialize_backends registry fallback (parseBackendNames cfg) s
  (s1, s1.active_backends)

/-! ## Sample inputs used by witnesses -/

/-- A 503 request entry (scenario C of the spec). -/
def sampleEntry503 : RequestLogEntry :=
  ⟨0, ⟨"GET", "/health", 503, 12⟩, none, none⟩

/-- A slow 503 request entry with a different duration and timestamp. -/
def sampleEntry503Slow : RequestLogEntry :=
  ⟨7, ⟨"POST", "/x", 503, 2000⟩, none, none⟩

/-- A performance breakdown with 12 queries on a 300 ms DB-heavy request
(scenario B of the spec). -/
def samplePerf : PerformanceBreakdown := ⟨300, 40, 260, 50, 12⟩

/-- Entry carrying `samplePerf`, with matching total duration. -/
def samplePerfEntry : RequestLogEntry :=
  ⟨0, ⟨"GET", "/patients", 200, 300⟩, none, some samplePerf⟩

/-! ## Dict lemmas -/

theorem dictGet_nil (name : String) (d : ℚ) : dictGet [] name d = d := rfl

theorem dictGet_cons (k0 : String) (v0 : ℚ) (tl : List (String × ℚ)) (name : String) (d : ℚ) :
    dictGet ((k0, v0) :: tl) name d = if k0 = name then v0 else dictGet tl name d := by
  by_cases h : k0 = name <;> simp [dictGet, List.find?_cons, h]

theorem dictHasKey_nil (name : String) : dictHasKey [] name = false := rfl

theorem dictHasKey_cons (k0 : String) (v0 : ℚ) (tl : List (String × ℚ)) (name : String) :
    dictHasKey ((k0, v0) :: tl) name = (decide (k0 = name) || dictHasKey tl name) := by
  by_cases h : k0 = name <;> simp [dictHasKey, List.find?_cons, h]

theorem dictSet_nil (k : String) (v : ℚ) : dictSet [] k v = [(k, v)] := rfl

theorem dictSet_cons (k0 : String) (v0 : ℚ) (tl : List (String × ℚ)) (k : String) (v : ℚ) :
    dictSet ((k0, v0) :: tl) k v =
      if k0 = k then (k0, v) :: tl else (k0, v0) :: dictSet tl k v := by
  by_cases h : k0 = k <;> simp [dictSet, h]

theorem dictGet_dictSet (ts : List (String × ℚ)) (k name : String) (v d : ℚ) :
    dictGet (dictSet ts k v) name d = if k = name then v else dictGet ts name d := by
  induction ts with
  | nil =>
      rw [dictSet_nil, dictGet_cons, dictGet_nil]
  | cons hd tl ih =>
      obtain ⟨k0, v0⟩ := hd
      rw [dictSet_cons]
      by_cases h1 : k0 = k
      · subst h1
        rw [if_pos rfl, dictGet_cons, dictGet_cons]
        by_cases h2 : k0 = name <;> simp [h2]
      · rw [if_neg h1, dictGet_cons, ih, dictGet_cons]
        by_cases h2 : k0 = name
        · subst h2
          have hk : ¬ k = k0 := fun h => h1 h.symm
          simp [hk]
        · simp [h2]

theorem dictHasKey_dictSet (ts : List (String × ℚ)) (k name : String) (v : ℚ) :
    dictHasKey (dictSet ts k v) name = (decide (k = name) || dictHasKey ts name) := by
  induction ts with
  | nil =>
      rw [dictSet_nil, dictHasKey_cons, dictHasKey_nil]
  | cons hd tl ih =>
      obtain ⟨k0, v0⟩ := hd
      rw [dictSet_cons]
      by_cases h1 : k0 = k
      · subst h1
        rw [if_pos rfl, dictHasKey_cons, dictHasKey_cons]
        by_cases h2 : k0 = name <;> simp [h2]
      · rw [if_neg h1, dictHasKey_cons, ih, dictHasKey_cons]
        by_cases h2 : k0 = name
        · subst h2
          simp [show ¬ k = k0 from fun h => h1 h.symm]
        · simp [h2]

/-! ## Timer lemmas -/

theorem dictGet_runCaptures (l : List (String × ℚ)) (t : RequestTimer) (name : String) :
    dictGet (RequestTimer.runCaptures t l).timings name 0 =
      dictGet t.timings name 0 + ((l.filter (fun p => p.1 == name)).map Prod.snd).sum := by
  induction l generalizing t with
  | nil => simp [RequestTimer.runCaptures]
  | cons hd tl ih =>
      obtain ⟨nm, e⟩ := hd
      have step : RequestTimer.runCaptures t ((nm, e) :: tl) =
          RequestTimer.runCaptures (t.capture nm e true) tl := rfl
      rw [step, ih]
      by_cases h : nm = name
      · subst h
        simp [RequestTimer.capture, dictGet_dictSet]
        ring
      · simp [RequestTimer.capture, dictGet_dictSet, h]

theorem dictHasKey_runCaptures (l : List (String × ℚ)) (t : RequestTimer) (name : String) :
    dictHasKey (RequestTimer.runCaptures t l).timings name =
      (dictHasKey t.timings name || l.any (fun p => p.1 == name)) := by
  induction l generalizing t with
  | nil => simp [RequestTimer.runCaptures]
  | cons hd tl ih =>
      obtain ⟨nm, e⟩ := hd
      have step : RequestTimer.runCaptures t ((nm, e) :: tl) =
          RequestTimer.runCaptures (t.capture nm e true) tl := rfl
      rw [step, ih]
      by_cases h : nm = name
      · subst h
        simp [RequestTimer.capture, dictHasKey_dictSet, Bool.or_assoc]
      · have hb : (nm == name) = false := by simp [h]
        simp [RequestTimer.capture, dictHasKey_dictSet, h, hb, Bool.or_assoc]

/-! ## Claim C7 -/

/-- Claim C7 (confirmed): replaying any sequence of completed captures
on a fresh `RequestTimer`, the recorded milliseconds for a name equal
the sum of the elapsed intervals of all captures with that name
(repeated names accumulate), a name never captured is absent from the
`timings` dict, and an empty recorder formats to the empty string. -/
theorem timer_accumulates_per_name (l : List (String × ℚ)) (name : String) :
    dictGet (RequestTimer.runCaptures RequestTimer.new l).timings name 0 =
      ((l.filter (fun p => p.1 == name)).map Prod.snd).sum ∧
    ((∀ p ∈ l, p.1 ≠ name) →
      dictHasKey (RequestTimer.runCaptures RequestTimer.new l).timings name = false) ∧
    RequestTimer.new.format_server_timing = "" := by
  refine ⟨?_, ?_, rfl⟩
  · rw [dictGet_runCaptures]
    simp [RequestTimer.new, dictGet]
  · intro h
    rw [dictHasKey_runCaptures]
    simp only [RequestTimer.new, dictHasKey, List.find?_nil, Option.isSome_none, Bool.false_or]
    simp only [List.any_eq_false]
    intro p hp
    simpa using h p hp

/-- Witness for C7: three captures, two of them named `db`, then a
lookup of an uncaptured name. -/
theorem timer_accumulates_per_name_witness :
    dictGet (RequestTimer.runCaptures RequestTimer.new
        [("db", 5), ("auth", 2), ("db", 3)]).timings "other" 0 = 0 ∧
    dictHasKey (RequestTimer.runCaptures RequestTimer.new
        [("db", 5), ("auth", 2), ("db", 3)]).timings "other" = false ∧
    RequestTimer.new.format_server_timing = "" := by
  have h := timer_accumulates_per_name [("db", 5), ("auth", 2), ("db", 3)] "other"
  refine ⟨?_, h.2.1 (by decide), h.2.2⟩
  rw [h.1]
  decide

/-! ## Claim C1 -/

/-- Counterexample for C1: a `capture("db")` scope whose body aborts
leaves the recorder in a different state than a normal capture of the
same elapsed interval — the elapsed time is not added to the bucket,
because the generator body after `yield` is skipped when the wrapped
work raises (no `try/finally` in the source). -/
theorem capture_abort_differs_from_normal :
    RequestTimer.capture RequestTimer.new "db" 5 false ≠
      RequestTimer.capture RequestTimer.new "db" 5 true := by
  decide

/-- Claim C1 (corrected): the elapsed time of a `capture(name)` scope
is added to the named bucket only when the wrapped work completes
normally; when it raises/aborts, the recorder is left unchanged (the
open handle is abandoned without recording). -/
theorem capture_records_only_on_normal_exit (t : RequestTimer) (name : String) (e : ℚ) :
    t.capture name e false = t ∧
    dictGet (t.capture name e true).timings name 0 = dictGet t.timings name 0 + e := by
  refine ⟨rfl, ?_⟩
  simp [RequestTimer.capture, dictGet_dictSet]

/-! ## Claim C2 -/

/-- Claim C2 (confirmed): `enqueue_log` is a total function of the
queue state (it never blocks and never raises); with free capacity it
appends the entry and returns `True` leaving `failed_logs` unchanged,
and on a full queue (capacity 10000) it drops the entry, increments
`failed_logs` by exactly 1, returns `False`, and leaves the queue
contents unchanged. -/
theorem enqueue_log_backpressure {α : Type} (s : PersistState α) (e : α) :
    (s.queue.length < 10000 →
      enqueue_log s e = ({ s with queue := s.queue ++ [e] }, true)) ∧
    (s.queue.length ≥ 10000 →
      enqueue_log s e = ({ s with failed_logs := s.failed_logs + 1 }, false)) := by
  constructor
  · intro h
    simp [enqueue_log, QUEUE_MAXSIZE, h]
  · intro h
    simp [enqueue_log, QUEUE_MAXSIZE]
    omega

/-- Witness for C2: an empty queue accepts an entry; a queue holding
10000 entries rejects one, counting the drop. -/
theorem enqueue_log_backpressure_witness :
    enqueue_log (⟨[], 0⟩ : PersistState ℕ) 7 = (⟨[7], 0⟩, true) ∧
    enqueue_log (⟨List.replicate 10000 0, 3⟩ : PersistState ℕ) 7 =
      (⟨List.replicate 10000 0, 4⟩, false) := by
  constructor
  · exact (enqueue_log_backpressure ⟨[], 0⟩ 7).1 (by simp)
  · exact (enqueue_log_backpressure ⟨List.replicate 10000 0, 3⟩ 7).2
      (by simp only [List.length_replicate]; omega)

/-! ## Claim C5 -/

theorem drainLoop_length {α : Type} (pending batch : List α) (h : batch.length ≤ 100) :
    ((drainLoop batch pending).1).length = min (batch.length + pending.length) 100 := by
  induction pending generalizing batch with
  | nil =>
      simp only [drainLoop, List.length_nil]
      omega
  | cons x rest ih =>
      by_cases hb : batch.length < 100
      · rw [drainLoop, if_pos hb, ih (batch ++ [x]) (by simp; omega)]
        simp
        omega
      · rw [drainLoop, if_neg hb]
        simp
        omega

/-- Counterexample for C5: with 100 further items queued behind the
first, the batch the consumer collects has 100 entries, not
`1 + min(100, 100) = 101` — the loop bound `len(batch) < 100` counts
the first item, so at most 99 additional items are drained. -/
theorem consumer_batch_not_101 :
    ((collectBatch (0 : ℕ) (List.replicate 100 0)).1).length = 100 ∧
    (100 : ℕ) ≠ 1 + min (List.replicate 100 (0 : ℕ)).length 100 := by
  constructor
  · rw [collectBatch, drainLoop_length (List.replicate 100 0) [0] (by simp)]
    simp
  · simp

/-- Claim C5 (amended): in each consumer-loop iteration, after the
blocking wait returns the first item, the consumer drains further
items without blocking until the batch reaches 100 entries; when the
queue holds `k` further items at that moment the batch contains
`1 + min(k, 99)` entries, i.e. `min(1 + k, 100)`. -/
theorem consumer_batch_size {α : Type} (first : α) (pending : List α) :
    ((collectBatch first pending).1).length = 1 + min pending.length 99 := by
  rw [collectBatch, drainLoop_length pending [first] (by simp)]
  simp
  omega

/-! ## Claim C4 -/

/-- Claim C4 (confirmed): `is_error` holds iff `status_code ≥ 500` and
`is_slow` holds iff `duration_ms > 1000`; each is a pure function of
that one metadata field, unchanged under variation of every other
field of the entry (and trivially independent of call order, being
side-effect-free functions of the frozen entry). -/
theorem entry_classification_pure (e e' : RequestLogEntry) :
    (e.is_error = true ↔ e.metadata.status_code ≥ 500) ∧
    (e.is_slow = true ↔ e.metadata.duration_ms > 1000) ∧
    (e.metadata.status_code = e'.metadata.status_code → e.is_error = e'.is_error) ∧
    (e.metadata.duration_ms = e'.metadata.duration_ms → e.is_slow = e'.is_slow) := by
  refine ⟨?_, ?_, ?_, ?_⟩
  · simp [RequestLogEntry.is_error]
  · simp [RequestLogEntry.is_slow]
  · intro h
    simp [RequestLogEntry.is_error, h]
  · intro h
    simp [RequestLogEntry.is_slow, h]

/-- Witness for C4: two 503 entries that differ in timestamp, method,
path and duration classify identically as errors; the 2000 ms one is
slow. -/
theorem entry_classification_pure_witness :
    sampleEntry503.is_error = true ∧
    sampleEntry503Slow.is_slow = true ∧
    sampleEntry503.is_error = sampleEntry503Slow.is_error := by
  have h := entry_classification_pure sampleEntry503 sampleEntry503Slow
  exact ⟨h.1.mpr (by decide), (entry_classification_pure sampleEntry503Slow sampleEntry503).2.1.mpr (by decide),
    h.2.2.1 rfl⟩

/-! ## Claim C6 -/

/-- Claim C6 (confirmed): `_log_request` routes the finished entry at
error level iff `is_error`; otherwise at warning level iff `is_slow`
or `status_code ≥ 400`; otherwise at info level — and a 503 entry is
routed at error severity. -/
theorem severity_routing (e : RequestLogEntry) :
    (log_severity e = LogLevel.error ↔ e.is_error = true) ∧
    (e.is_error = false →
      (log_severity e = LogLevel.warning ↔ (e.is_slow = true ∨ e.metadata.status_code ≥ 400))) ∧
    (e.is_error = false → e.is_slow = false → e.metadata.status_code < 400 →
      log_severity e = LogLevel.info) ∧
    (e.metadata.status_code = 503 → log_severity e = LogLevel.error) := by
  refine ⟨?_, ?_, ?_, ?_⟩
  · by_cases he : e.is_error
    · simp [log_severity, he]
    · by_cases hs : e.is_slow
      · simp [log_severity, he, hs]
      · by_cases h4 : e.metadata.status_code ≥ 400 <;> simp [log_severity, he, hs, h4]
  · intro he
    by_cases hs : e.is_slow
    · simp [log_severity, he, hs]
    · by_cases h4 : e.metadata.status_code ≥ 400 <;> simp [log_severity, he, hs, h4]
  · intro he hs h4
    have h4' : ¬ e.metadata.status_code ≥ 400 := by omega
    simp [log_severity, he, hs, h4']
  · intro h
    have he : e.is_error = true := by simp [RequestLogEntry.is_error, h]
    simp [log_severity, he]

/-- Witness for C6: the 503 sample entry is routed at error severity. -/
theorem severity_routing_witness :
    log_severity sampleEntry503 = LogLevel.error :=
  (severity_routing sampleEntry503).2.2.2 rfl

/-! ## Claim C3 -/

theorem roundHalfEven_intCast (z : ℤ) : roundHalfEven (z : ℚ) = z := by
  unfold roundHalfEven
  rw [Int.floor_intCast]
  norm_num

theorem append_if_one {α : Type} (w a : List α) (c : Prop) [Decidable c] :
    (if c then w ++ a else w) = w ++ (if c then a else []) := by
  split_ifs <;> simp

theorem append_if_else {α : Type} (w a d : List α) (c : Prop) [Decidable c] :
    (if c then w ++ a else w ++ d) = w ++ (if c then a else d) := by
  split_ifs <;> rfl

theorem if_nested_and {α : Type} (a : List α) (c1 c2 : Prop)
    [Decidable c1] [Decidable c2] :
    (if c1 then (if c2 then a else []) else []) = if c1 ∧ c2 then a else [] := by
  split_ifs <;> simp_all

/-- Claim C3 (confirmed): on an entry with a performance breakdown
whose `total_ms` is the entry's total request duration (as holds for
every entry the middleware builds), `optimization_warnings` is exactly
the concatenation of the four rules of §4.2, evaluated in order, each
appending its applicable warning: the two query-count messages are
mutually exclusive, the two SQL-duration messages are mutually
exclusive, connection overhead fires iff
`db_overhead_ms > slow_query_threshold/2` and
`db_overhead_ms > 0.3·total_ms`, and DB-dominance fires iff
`total_ms > 50`, `db_percentage > 80` and `total_ms > 200`. -/
theorem optimization_warnings_rules (thr : ℚ) (e : RequestLogEntry)
    (p : PerformanceBreakdown) (hp : e.performance = some p)
    (ht : p.total_ms = e.metadata.duration_ms) :
    e.optimization_warnings thr = specWarningRules thr p := by
  unfold RequestLogEntry.optimization_warnings specWarningRules dbDominatedCheck
  rw [hp]
  dsimp only
  rw [← ht, mul_comm p.total_ms ((3 : ℚ) / 10)]
  simp only [append_if_one, append_if_else, if_nested_and]
  simp only [List.nil_append, List.append_assoc]

/-- Witness for C3: scenario-B-like input (12 queries, 300 ms total,
260 ms DB session, 50 ms SQL, threshold 500): the N+1 warning and the
DB-dominance warning fire, and nothing else. -/
theorem optimization_warnings_rules_witness :
    samplePerfEntry.optimization_warnings 500 = specWarningRules 500 samplePerf ∧
    samplePerfEntry.optimization_warnings 500 =
      [msgNPlus1 12, msgDbDominated (260 / 300 * 100) 300 12] := by
  have hmain := optimization_warnings_rules 500 samplePerfEntry samplePerf rfl rfl
  refine ⟨hmain, ?_⟩
  rw [hmain]
  have hover : samplePerf.db_overhead_ms = 210 := by
    unfold samplePerf PerformanceBreakdown.db_overhead_ms round2
    norm_num
    rw [show ((21000 : ℚ)) = ((21000 : ℤ) : ℚ) by norm_num, roundHalfEven_intCast]
    norm_num
  rw [specWarningRules, hover]
  norm_num [samplePerf]

/-! ## Claim C8 -/

theorem get_filename_factors (n : ℕ) :
    get_filename n = "wk" ++ pad2 (isoWeekNumber n) ++ "_" ++
      isoDateString (fromRataDie (mondayOf n)) ++ "--" ++
      isoDateString (fromRataDie (mondayOf n + 6)) ++ ".json" := rfl

theorem isoWeekNumber_congr (m n : ℕ) (h : mondayOf m = mondayOf n) :
    isoWeekNumber m = isoWeekNumber n := by
  unfold isoWeekNumber
  rw [h]

/-- Claim C8 (confirmed): the file sink's filename is
`wkNN_S--E.json` where `NN` is the two-digit ISO-8601 week number of
the entry's date, `S` is the ISO date of the Monday of the week
containing it (the date minus its weekday), and `E` the ISO date of
the following Sunday; any two dates sharing that Monday yield the same
filename. -/
theorem weekly_filename_spec (n : ℕ) (h : 1 ≤ n) :
    get_filename n = "wk" ++ pad2 (isoWeekNumber n) ++ "_" ++
      isoDateString (fromRataDie (mondayOf n)) ++ "--" ++
      isoDateString (fromRataDie (mondayOf n + 6)) ++ ".json" ∧
    weekday (mondayOf n) = 0 ∧
    weekday (mondayOf n + 6) = 6 ∧
    mondayOf n ≤ n ∧ n ≤ mondayOf n + 6 ∧
    (∀ m, mondayOf m = mondayOf n → get_filename m = get_filename n) := by
  refine ⟨rfl, ?_, ?_, ?_, ?_, ?_⟩
  · unfold mondayOf weekday
    omega
  · unfold mondayOf weekday
    omega
  · unfold mondayOf weekday
    omega
  · unfold mondayOf weekday
    omega
  · intro m hm
    rw [get_filename_factors m, get_filename_factors n, hm, isoWeekNumber_congr m n hm]

/-- Witness for C8: 2024-01-10 (a Wednesday of ISO week 2) maps to the
file of Monday 2024-01-08 through Sunday 2024-01-14, and 2024-01-12
(the Friday of the same week) maps to the same file. -/
theorem weekly_filename_spec_witness :
    get_filename (toRataDie 2024 1 10) = "wk02_2024-01-08--2024-01-14.json" ∧
    weekday (mondayOf (toRataDie 2024 1 10)) = 0 ∧
    get_filename (toRataDie 2024 1 12) = get_filename (toRataDie 2024 1 10) := by
  have h := weekly_filename_spec (toRataDie 2024 1 10) (by decide)
  exact ⟨by decide, h.2.1, h.2.2.2.2.2 (toRataDie 2024 1 12) (by decide)⟩

/-! ## Claim C9 -/

/-- Claim C9 (confirmed): initializing the registry from a configured
comma-separated name list always yields a non-empty active list — the
instantiated sinks of the known names in order, names outside the
registry (or whose construction fails) being skipped, with the file
sink as fallback when nothing usable remains — and a second
initialization leaves the state unchanged, `get_active_backends`
returning that same list. -/
theorem initialize_backends_uninit (registry : List (String × Option Backend))
    (fallback : Backend) (names : List String) :
    initialize_backends registry fallback names ⟨false, []⟩ =
      ⟨true, if names.filterMap (fun nm => (registry.lookup nm).join) = []
             then names.filterMap (fun nm => (registry.lookup nm).join) ++ [fallback]
             else names.filterMap (fun nm => (registry.lookup nm).join)⟩ := rfl

theorem registry_activation (registry : List (String × Option Backend))
    (fallback : Backend) (cfg : String) :
    0 < (initialize_backends registry fallback (parseBackendNames cfg)
          ⟨false, []⟩).active_backends.length ∧
    (initialize_backends registry fallback (parseBackendNames cfg)
        ⟨false, []⟩).active_backends =
      (if ((parseBackendNames cfg).filterMap (fun nm => (registry.lookup nm).join)) = []
       then [fallback]
       else (parseBackendNames cfg).filterMap (fun nm => (registry.lookup nm).join)) ∧
    initialize_backends registry fallback (parseBackendNames cfg)
        (initialize_backends registry fallback (parseBackendNames cfg) ⟨false, []⟩) =
      initialize_backends registry fallback (parseBackendNames cfg) ⟨false, []⟩ ∧
    (get_active_backends registry fallback cfg ⟨false, []⟩).2 =
      (initialize_backends registry fallback (parseBackendNames cfg)
        ⟨false, []⟩).active_backends := by
  have hinit := initialize_backends_uninit registry fallback (parseBackendNames cfg)
  refine ⟨?_, ?_, ?_, rfl⟩
  · rw [hinit]
    by_cases happ :
        ((parseBackendNames cfg).filterMap (fun nm => (registry.lookup nm).join)) = []
    · rw [if_pos happ, happ]
      simp
    · rw [if_neg happ]
      exact List.length_pos.mpr happ
  · rw [hinit]
    by_cases happ :
        ((parseBackendNames cfg).filterMap (fun nm => (registry.lookup nm).join)) = []
    · rw [if_pos happ, if_pos happ, happ]
      rfl
    · rw [if_neg happ, if_neg happ]
  · rw [hinit]
    rfl

/-! ## Claim C10 -/

theorem digitVal_digitChar (k : ℕ) (h : k < 10) :
    digitVal? (digitChar k) = some k := by
  interval_cases k <;> decide

theorem daysInMonth_le_31 (y m : ℕ) : daysInMonth y m ≤ 31 := by
  unfold daysInMonth
  split_ifs <;> omega

theorem fromisoformat_isoDateString (y m d : ℕ) (hy1 : 1 ≤ y) (hy2 : y ≤ 9999)
    (hm1 : 1 ≤ m) (hm2 : m ≤ 12) (hd1 : 1 ≤ d) (hd2 : d ≤ daysInMonth y m) :
    fromisoformat (isoDateString (y, m, d)) = some (y, m, d) := by
  have hlist : (isoDateString (y, m, d)).toList =
      [digitChar (y / 1000 % 10), digitChar (y / 100 % 10), digitChar (y / 10 % 10),
       digitChar (y % 10), '-', digitChar (m / 10 % 10), digitChar (m % 10), '-',
       digitChar (d / 10 % 10), digitChar (d % 10)] := rfl
  have hd31 : d ≤ 31 := le_trans hd2 (daysInMonth_le_31 y m)
  unfold fromisoformat
  rw [hlist]
  dsimp only
  rw [digitVal_digitChar (y / 1000 % 10) (by omega), digitVal_digitChar (y / 100 % 10) (by omega),
      digitVal_digitChar (y / 10 % 10) (by omega), digitVal_digitChar (y % 10) (by omega),
      digitVal_digitChar (m / 10 % 10) (by omega), digitVal_digitChar (m % 10) (by omega),
      digitVal_digitChar (d / 10 % 10) (by omega), digitVal_digitChar (d % 10) (by omega)]
  dsimp only
  have hy : y / 1000 % 10 * 1000 + y / 100 % 10 * 100 + y / 10 % 10 * 10 + y % 10 = y := by
    omega
  have hm : m / 10 % 10 * 10 + m % 10 = m := by omega
  have hd : d / 10 % 10 * 10 + d % 10 = d := by omega
  rw [if_pos ⟨rfl, rfl⟩, hy, hm, hd, if_pos ⟨hy1, hm1, hm2, hd1, hd2⟩]

/-- Claim C10 (confirmed): `FileBackend.write` selects the weekly file
from the entry's `date` key when present (parsed as an ISO date),
defaulting to today's date when absent; a present but invalid date
string raises no exception — the write returns `False`, increments
`failed_writes` by exactly 1 and writes nothing — while a successful
write appends the JSON payload to the weekly file, returns `True` and
increments `total_writes` by exactly 1. -/
theorem file_write_date_handling (ty tm td : ℕ) (s : FileBackendState)
    (entry : List (String × String)) :
    (∀ ds, entry.lookup "date" = some ds → fromisoformat ds = none →
      FileBackend.write (ty, tm, td) s entry =
        ({ s with failed_writes := s.failed_writes + 1 }, false)) ∧
    (∀ ds y m d, entry.lookup "date" = some ds → fromisoformat ds = some (y, m, d) →
      FileBackend.write (ty, tm, td) s entry =
        ({ s with
            files := filesAppend s.files (get_filename (toRataDie y m d)) (jsonDumps entry),
            total_writes := s.total_writes + 1 }, true)) ∧
    (entry.lookup "date" = none →
      1 ≤ ty → ty ≤ 9999 → 1 ≤ tm → tm ≤ 12 → 1 ≤ td → td ≤ daysInMonth ty tm →
      FileBackend.write (ty, tm, td) s entry =
        ({ s with
            files := filesAppend s.files (get_filename (toRataDie ty tm td)) (jsonDumps entry),
            total_writes := s.total_writes + 1 }, true)) := by
  refine ⟨?_, ?_, ?_⟩
  · intro ds h1 h2
    unfold FileBackend.write
    rw [h1]
    simp only [Option.getD_some]
    rw [h2]
  · intro ds y m d h1 h2
    unfold FileBackend.write
    rw [h1]
    simp only [Option.getD_some]
    rw [h2]
  · intro h1 hy1 hy2 hm1 hm2 hd1 hd2
    unfold FileBackend.write
    rw [h1]
    simp only [Option.getD_none]
    rw [fromisoformat_isoDateString ty tm td hy1 hy2 hm1 hm2 hd1 hd2]

/-- Witness for C10: an unparseable `date` value is counted as a failed
write and writes nothing; a valid `date` and a missing `date` key both
append one JSON line to the corresponding weekly file. -/
theorem file_write_date_handling_witness :
    FileBackend.write (2026, 10, 12) ⟨[], 0, 0⟩ [("date", "not-a-date")] =
      (⟨[], 0, 1⟩, false) ∧
    FileBackend.write (2026, 10, 12) ⟨[], 0, 0⟩ [("date", "2024-01-10"), ("level", "INFO")] =
      (⟨[("wk02_2024-01-08--2024-01-14.json",
          [jsonDumps [("date", "2024-01-10"), ("level", "INFO")]])], 1, 0⟩, true) ∧
    FileBackend.write (2026, 10, 12) ⟨[], 0, 0⟩ [("level", "INFO")] =
      (⟨[("wk42_2026-10-12--2026-10-18.json",
          [jsonDumps [("level", "INFO")]])], 1, 0⟩, true) := by
  refine ⟨?_, ?_, ?_⟩
  · exact (file_write_date_handling 2026 10 12 ⟨[], 0, 0⟩
      [("date", "not-a-date")]).1 "not-a-date" rfl (by decide)
  · rw [(file_write_date_handling 2026 10 12 ⟨[], 0, 0⟩
      [("date", "2024-01-10"), ("level", "INFO")]).2.1 "2024-01-10" 2024 1 10 rfl (by decide)]
    decide
  · rw [(file_write_date_handling 2026 10 12 ⟨[], 0, 0⟩
      [("level", "INFO")]).2.2 rfl (by decide) (by decide)
      (by decide) (by decide) (by decide) (by decide)]
    decide

end DbQueryOpt
